import Mathlib

/-!
Shallow embedding of the `nih_plug_baseview` editor adapter
(`src/lib.rs`, `src/editor.rs`).

Modelling conventions:
- `u32` values (window size, X11 window ids) are stored and forwarded
  verbatim, never computed with, so they are modelled as `Nat`.
- Raw platform pointers (`*mut c_void` for AppKit views and Win32 HWNDs)
  are likewise only copied, so they are modelled as `Nat` addresses.
- `f32`/`f64` scale factors are stored and forwarded verbatim (the only
  operation is the lossless `as f64` widening), so they are modelled as
  `Rat`, a type with decidable equality standing in for the representable
  float values.
- The atomic cells (`AtomicCell`, `AtomicBool`) hold plain values here;
  state mutation becomes explicit state passing.
- The external native call `baseview::Window::open_parented` and
  `WindowHandle::close` are modelled as events recorded in a trace, so
  ordering claims about them can be stated; the native window handle is
  an abstract token.
-/

/-- Stand-in for `f32` scale factors (only stored and compared verbatim). -/
abbrev F32 := Rat

/-- The editor GUI state (`src/lib.rs` lines 60-68): window size in logical
pixels and whether the editor window is currently open. -/
structure BaseviewState where
  size : Nat × Nat
  «open» : Bool
  deriving DecidableEq, Repr

/-- BaseviewState::from_size (`src/lib.rs` lines 86-91). -/
def BaseviewState.from_size (width height : Nat) : BaseviewState :=
  { size := (width, height), «open» := false }

/-- BaseviewState::is_open (`src/lib.rs` lines 100-102): loads the open flag.
The method BaseviewState::size (lines 94-96) loads the size cell and is the
field projection `BaseviewState.size` here. -/
def BaseviewState.is_open (s : BaseviewState) : Bool := s.«open»

/-- PersistentField::set for Arc BaseviewState (`src/lib.rs` lines 71-73):
`self.size.store(new_value.size.load())` — only the size is copied into the
live state. -/
def PersistentField.set (self new_value : BaseviewState) : BaseviewState :=
  { self with size := new_value.size }

/-- Serialized shape of `BaseviewState`: the `size` field is serialized
through `serialize_atomic_cell`; the `open` field is `#[serde(skip)]`
(`src/lib.rs` line 66) and therefore never written out. -/
def BaseviewState.serialize (s : BaseviewState) : Nat × Nat := s.size

/-- Deserialization of `BaseviewState`: `size` is read from the serialized
data; the skipped `open` field is filled with `AtomicBool`'s `Default`,
which is `false`. -/
def BaseviewState.deserialize (size : Nat × Nat) : BaseviewState :=
  { size := size, «open» := false }

/-- nih_plug's `ParentWindowHandle` (the host-supplied parent reference):
an X11 window id (`u32`), an AppKit `NSView` pointer, or a Win32 `HWND`. -/
inductive ParentWindowHandle where
  | X11Window (window : Nat)
  | AppKitNsView (ns_view : Nat)
  | Win32Hwnd (hwnd : Nat)
  deriving DecidableEq, Repr

/-- raw_window_handle's `XcbWindowHandle` (fields `window`, `visual_id`). -/
structure XcbWindowHandle where
  window : Nat
  visual_id : Nat
  deriving DecidableEq, Repr

/-- XcbWindowHandle::empty(): all fields zero. -/
def XcbWindowHandle.empty : XcbWindowHandle :=
  { window := 0, visual_id := 0 }

/-- raw_window_handle's `AppKitWindowHandle` (fields `ns_window`, `ns_view`). -/
structure AppKitWindowHandle where
  ns_window : Nat
  ns_view : Nat
  deriving DecidableEq, Repr

/-- AppKitWindowHandle::empty(): all fields null. -/
def AppKitWindowHandle.empty : AppKitWindowHandle :=
  { ns_window := 0, ns_view := 0 }

/-- raw_window_handle's `Win32WindowHandle` (fields `hwnd`, `hinstance`). -/
structure Win32WindowHandle where
  hwnd : Nat
  hinstance : Nat
  deriving DecidableEq, Repr

/-- Win32WindowHandle::empty(): all fields null. -/
def Win32WindowHandle.empty : Win32WindowHandle :=
  { hwnd := 0, hinstance := 0 }

/-- raw_window_handle's `RawWindowHandle` variants used by the adapter. -/
inductive RawWindowHandle where
  | Xcb (handle : XcbWindowHandle)
  | AppKit (handle : AppKitWindowHandle)
  | Win32 (handle : Win32WindowHandle)
  deriving DecidableEq, Repr

/-- ParentWindowHandleAdapter::raw_window_handle (`src/editor.rs` lines
36-54): starts from the `empty()` handle of the matching variant and sets
exactly the one platform field. -/
def ParentWindowHandleAdapter.raw_window_handle :
    ParentWindowHandle → RawWindowHandle
  | .X11Window window => .Xcb { XcbWindowHandle.empty with window := window }
  | .AppKitNsView ns_view =>
      .AppKit { AppKitWindowHandle.empty with ns_view := ns_view }
  | .Win32Hwnd hwnd => .Win32 { Win32WindowHandle.empty with hwnd := hwnd }

/-- baseview's `GlConfig` fields that the adapter sets explicitly
(`src/editor.rs` lines 85-98); the fields covered by `..Default::default()`
belong to the external library and no claim touches them. -/
structure GlConfig where
  version : Nat × Nat
  red_bits : Nat
  blue_bits : Nat
  green_bits : Nat
  alpha_bits : Nat
  depth_bits : Nat
  stencil_bits : Nat
  samples : Option Nat
  srgb : Bool
  double_buffer : Bool
  vsync : Bool
  deriving DecidableEq, Repr

/-- baseview's `WindowScalePolicy`. -/
inductive WindowScalePolicy where
  | ScaleFactor (factor : F32)
  | SystemScaleFactor
  deriving DecidableEq, Repr

/-- baseview's `WindowOpenOptions` as constructed by spawn; `Size::new`
takes the logical size as `f64`, a lossless widening of the `u32` pair. -/
structure WindowOpenOptions where
  title : String
  size : Nat × Nat
  scale : WindowScalePolicy
  gl_config : Option GlConfig
  deriving DecidableEq, Repr

/-- The editor adapter (`src/editor.rs` lines 15-29). `T` is the plugin's
user GUI state and `B` the opaque build closure, both out-of-scope
collaborators carried verbatim. -/
structure BaseviewEditor (T B : Type) where
  baseview_state : BaseviewState
  user_state : T
  build : B
  scaling_factor : Option F32

/-- create_baseview_editor (`src/lib.rs` lines 32-57). The compile-time
`cfg(target_os = "macos")` choice of the initial scaling factor is the
`macos` parameter. -/
def create_baseview_editor (macos : Bool) (baseview_state : BaseviewState)
    (user_state : T) (build : B) : Option (BaseviewEditor T B) :=
  some { baseview_state := baseview_state
         user_state := user_state
         build := build
         scaling_factor := if macos then none else some 1 }

/-- The opaque native window handle returned by
`baseview::Window::open_parented`. -/
inductive WindowHandle where
  | mk
  deriving DecidableEq, Repr

/-- BaseviewEditorHandle (`src/editor.rs` lines 191-194): the disposal
handle returned to the host, sharing the editor state. -/
structure BaseviewEditorHandle where
  baseview_state : BaseviewState
  window : WindowHandle
  deriving DecidableEq, Repr

/-- Observable actions of the adapter on the native layer and the shared
open flag, in program order. -/
inductive NativeEvent where
  | open_parented (parent : RawWindowHandle) (options : WindowOpenOptions)
  | store_open (value : Bool)
  | window_close
  deriving DecidableEq, Repr

/-- Tests whether an event is the store of the given value to the open flag. -/
def NativeEvent.is_store_open (value : Bool) : NativeEvent → Bool
  | .store_open b => b == value
  | _ => false

/-- Tests whether an event is the native window-creation call. -/
def NativeEvent.is_open_parented : NativeEvent → Bool
  | .open_parented _ _ => true
  | _ => false

/-- Tests whether an event is the native window-close request. -/
def NativeEvent.is_window_close : NativeEvent → Bool
  | .window_close => true
  | _ => false

/-- The fixed `GlConfig` literal passed by spawn (`src/editor.rs` lines
85-98). -/
def spawnGlConfig : GlConfig :=
  { version := (3, 2)
    red_bits := 8
    blue_bits := 8
    green_bits := 8
    alpha_bits := 8
    depth_bits := 24
    stencil_bits := 8
    samples := none
    srgb := true
    double_buffer := true
    vsync := true }

/-- The `WindowOpenOptions` built inside spawn (`src/editor.rs` lines
75-99) from the size snapshot and the scaling-factor snapshot. -/
def BaseviewEditor.spawnOptions (e : BaseviewEditor T B) : WindowOpenOptions :=
  { title := "baseview window"
    size := e.baseview_state.size
    scale := (e.scaling_factor.map fun factor =>
        WindowScalePolicy.ScaleFactor factor).getD
      WindowScalePolicy.SystemScaleFactor
    gl_config := some spawnGlConfig }

/-- Result of spawn: the event trace, the editor with its shared state
updated, and the handle returned to the host (which holds the same shared
state). -/
structure SpawnResult (T B : Type) where
  events : List NativeEvent
  editor : BaseviewEditor T B
  handle : BaseviewEditorHandle

/-- BaseviewEditor::spawn (`src/editor.rs` lines 62-107): build the
options, call the native `open_parented`, then `open.store(true)`, then
return the handle. The `Arc` sharing of `BaseviewState` between editor and
handle is modelled by giving both the updated state. -/
def BaseviewEditor.spawn (e : BaseviewEditor T B) (parent : ParentWindowHandle) :
    SpawnResult T B :=
  let options := e.spawnOptions
  let state' : BaseviewState := { e.baseview_state with «open» := true }
  { events := [.open_parented
        (ParentWindowHandleAdapter.raw_window_handle parent) options,
      .store_open true]
    editor := { e with baseview_state := state' }
    handle := { baseview_state := state', window := WindowHandle.mk } }

/-- Drop for BaseviewEditorHandle (`src/editor.rs` lines 200-206):
`open.store(false)` first, then `window.close()`. Returns the trace and
the shared state after disposal. -/
def BaseviewEditorHandle.drop (h : BaseviewEditorHandle) :
    List NativeEvent × BaseviewState :=
  ([.store_open false, .window_close],
    { h.baseview_state with «open» := false })

/-- BaseviewEditor::set_scale_factor (`src/editor.rs` lines 166-175):
rejected while open, otherwise stores `Some(factor)` and succeeds. -/
def BaseviewEditor.set_scale_factor (e : BaseviewEditor T B) (factor : F32) :
    BaseviewEditor T B × Bool :=
  if e.baseview_state.is_open then (e, false)
  else ({ e with scaling_factor := some factor }, true)

/-- The host-triggerable operations that can touch the adapter's state
after construction. -/
inductive EditorOp where
  | set_scale (factor : F32)
  | spawn_window (parent : ParentWindowHandle)
  | drop_handle
  deriving DecidableEq, Repr

/-- Effect of one host operation on the adapter (handle disposal acts on
the shared state through the `Arc`, modelled by updating the editor's
copy). -/
def applyOp (e : BaseviewEditor T B) : EditorOp → BaseviewEditor T B
  | .set_scale factor => (e.set_scale_factor factor).1
  | .spawn_window parent => (e.spawn parent).editor
  | .drop_handle =>
      { e with baseview_state := { e.baseview_state with «open» := false } }

/-- Runs a sequence of host operations from a starting adapter state. -/
def runOps (e : BaseviewEditor T B) (ops : List EditorOp) : BaseviewEditor T B :=
  ops.foldl applyOp e

/-- The adapter as built by create_baseview_editor on a non-macOS platform
(initial scaling factor Some(1.0)). -/
def initialNonMacEditor (st : BaseviewState) (u : T) (b : B) :
    BaseviewEditor T B :=
  { baseview_state := st
    user_state := u
    build := b
    scaling_factor := some 1 }

/-! Concrete instances used by witnesses and counterexamples (the scenario
of the spec: size 400 x 300, X11 parent id 0x1234). -/

/-- A freshly constructed editor state of size 400 x 300. -/
def exampleState : BaseviewState := BaseviewState.from_size 400 300

/-- A concrete adapter on a non-macOS platform (trivial user state and
build closure). -/
def exampleEditor : BaseviewEditor Unit Unit :=
  { baseview_state := exampleState
    user_state := ()
    build := ()
    scaling_factor := some 1 }

/-- A concrete X11 parent handle with window id 0x1234 = 4660. -/
def exampleParent : ParentWindowHandle := ParentWindowHandle.X11Window 4660

/-- The adapter after a spawn with the example parent (its window is open). -/
def exampleOpenEditor : BaseviewEditor Unit Unit :=
  (exampleEditor.spawn exampleParent).editor

/-- The disposal handle returned by the example spawn. -/
def exampleHandle : BaseviewEditorHandle :=
  (exampleEditor.spawn exampleParent).handle

/-- C8: for all (width, height), a state built by from_size has
size() = (width, height) and is_open() = false before any spawn. -/
theorem claim_C8 (width height : Nat) :
    (BaseviewState.from_size width height).size = (width, height) ∧
    (BaseviewState.from_size width height).is_open = false :=
  ⟨rfl, rfl⟩

/-- C7: on persistence load, PersistentField::set copies only the size
from the incoming value and leaves the live open flag unchanged; the open
flag is never serialized, and a freshly deserialized state always has
open = false. -/
theorem claim_C7 (live new_value : BaseviewState) (size : Nat × Nat) :
    (PersistentField.set live new_value).size = new_value.size ∧
    (PersistentField.set live new_value).«open» = live.«open» ∧
    BaseviewState.serialize live = live.size ∧
    (BaseviewState.deserialize size).is_open = false ∧
    (BaseviewState.deserialize (BaseviewState.serialize live)).is_open = false :=
  ⟨rfl, rfl, rfl, rfl, rfl⟩

/-- C9: every spawn passes the same fixed rendering-surface configuration:
OpenGL 3.2, 8-bit RGBA, 24-bit depth, 8-bit stencil, no multisampling,
double-buffered, vsync on — independent of the adapter's state and of the
spawn arguments. -/
theorem claim_C9 (T B : Type) (e : BaseviewEditor T B)
    (parent : ParentWindowHandle) :
    e.spawnOptions.gl_config = some spawnGlConfig ∧
    ((e.spawn parent).events.head?.map fun ev =>
        match ev with
        | NativeEvent.open_parented _ options => options.gl_config
        | _ => none) = some (some spawnGlConfig) ∧
    spawnGlConfig.version = (3, 2) ∧
    spawnGlConfig.red_bits = 8 ∧
    spawnGlConfig.green_bits = 8 ∧
    spawnGlConfig.blue_bits = 8 ∧
    spawnGlConfig.alpha_bits = 8 ∧
    spawnGlConfig.depth_bits = 24 ∧
    spawnGlConfig.stencil_bits = 8 ∧
    spawnGlConfig.samples = none ∧
    spawnGlConfig.double_buffer = true ∧
    spawnGlConfig.vsync = true :=
  ⟨rfl, rfl, rfl, rfl, rfl, rfl, rfl, rfl, rfl, rfl, rfl, rfl⟩

/-- C4: each variant's translation copies the single platform field
verbatim into the matching field of the target handle, leaves every other
target field at its zero/empty default, and is injective per variant. -/
theorem claim_C4 :
    (∀ window, ParentWindowHandleAdapter.raw_window_handle
        (ParentWindowHandle.X11Window window)
      = RawWindowHandle.Xcb { window := window, visual_id := 0 }) ∧
    (∀ ns_view, ParentWindowHandleAdapter.raw_window_handle
        (ParentWindowHandle.AppKitNsView ns_view)
      = RawWindowHandle.AppKit { ns_window := 0, ns_view := ns_view }) ∧
    (∀ hwnd, ParentWindowHandleAdapter.raw_window_handle
        (ParentWindowHandle.Win32Hwnd hwnd)
      = RawWindowHandle.Win32 { hwnd := hwnd, hinstance := 0 }) ∧
    (∀ a b : Nat, ParentWindowHandleAdapter.raw_window_handle
          (ParentWindowHandle.X11Window a)
        = ParentWindowHandleAdapter.raw_window_handle
          (ParentWindowHandle.X11Window b) → a = b) ∧
    (∀ a b : Nat, ParentWindowHandleAdapter.raw_window_handle
          (ParentWindowHandle.AppKitNsView a)
        = ParentWindowHandleAdapter.raw_window_handle
          (ParentWindowHandle.AppKitNsView b) → a = b) ∧
    (∀ a b : Nat, ParentWindowHandleAdapter.raw_window_handle
          (ParentWindowHandle.Win32Hwnd a)
        = ParentWindowHandleAdapter.raw_window_handle
          (ParentWindowHandle.Win32Hwnd b) → a = b) := by
  refine ⟨fun _ => rfl, fun _ => rfl, fun _ => rfl, ?_, ?_, ?_⟩ <;>
    intro a b h <;>
    simpa [ParentWindowHandleAdapter.raw_window_handle,
      XcbWindowHandle.empty, AppKitWindowHandle.empty, Win32WindowHandle.empty,
      XcbWindowHandle.mk.injEq, AppKitWindowHandle.mk.injEq,
      Win32WindowHandle.mk.injEq] using h

/-- Witness for C4: the injectivity implications applied at the concrete
window id 0x1234. -/
theorem claim_C4_witness : (4660 : Nat) = 4660 :=
  claim_C4.2.2.2.1 4660 4660 rfl

/-- C3: while the editor is open, set_scale_factor fails and leaves the
stored scaling factor (and the whole adapter) unchanged; while closed it
stores `Some(factor)` and succeeds. -/
theorem claim_C3 (T B : Type) (e : BaseviewEditor T B) (factor : F32) :
    (e.baseview_state.is_open = true →
      (e.set_scale_factor factor).2 = false ∧
      (e.set_scale_factor factor).1 = e) ∧
    (e.baseview_state.is_open = false →
      (e.set_scale_factor factor).2 = true ∧
      (e.set_scale_factor factor).1.scaling_factor = some factor) := by
  constructor <;> intro h <;>
    simp [BaseviewEditor.set_scale_factor, h]

/-- Witness for C3: the open branch at the post-spawn example adapter and
the closed branch at the fresh example adapter, both with factor 2. -/
theorem claim_C3_witness :
    ((exampleOpenEditor.set_scale_factor 2).2 = false ∧
      (exampleOpenEditor.set_scale_factor 2).1 = exampleOpenEditor) ∧
    ((exampleEditor.set_scale_factor 2).2 = true ∧
      (exampleEditor.set_scale_factor 2).1.scaling_factor = some 2) :=
  ⟨(claim_C3 Unit Unit exampleOpenEditor 2).1 rfl,
    (claim_C3 Unit Unit exampleEditor 2).2 rfl⟩

/-- The event trace of spawn, unfolded. -/
theorem spawn_events (e : BaseviewEditor T B) (parent : ParentWindowHandle) :
    (e.spawn parent).events
      = [NativeEvent.open_parented
          (ParentWindowHandleAdapter.raw_window_handle parent) e.spawnOptions,
        NativeEvent.store_open true] := rfl

/-- The event trace of handle disposal, unfolded. -/
theorem drop_events (h : BaseviewEditorHandle) :
    (h.drop).1 = [NativeEvent.store_open false, NativeEvent.window_close] := rfl

/-- C1: is_open is false before any spawn, true immediately after spawn
returns (on the state shared by editor and handle, for every parent-handle
variant), and the store of true to the open flag appears in the spawn trace
only after the native window-creation call. -/
theorem claim_C1 :
    (∀ width height, (BaseviewState.from_size width height).is_open = false) ∧
    (∀ (T B : Type) (e : BaseviewEditor T B) (parent : ParentWindowHandle),
      (e.spawn parent).editor.baseview_state.is_open = true ∧
      (e.spawn parent).handle.baseview_state.is_open = true ∧
      ∀ i : Fin (e.spawn parent).events.length,
        ((e.spawn parent).events.get i).is_store_open true = true →
        ∃ j : Fin (e.spawn parent).events.length,
          (j : Nat) < (i : Nat) ∧
          ((e.spawn parent).events.get j).is_open_parented = true) := by
  refine ⟨fun _ _ => rfl, fun T B e parent => ⟨rfl, rfl, ?_⟩⟩
  rintro ⟨i, hlt⟩ hi
  have hl2 : (e.spawn parent).events.length = 2 := rfl
  rw [hl2] at hlt
  interval_cases i
  · exact absurd hi (by simp [spawn_events, NativeEvent.is_store_open])
  · exact ⟨⟨0, Nat.zero_lt_two⟩, Nat.zero_lt_one, rfl⟩

/-- Witness for C1: at the example spawn, the trace position 1 stores true
to the open flag and is preceded by the native creation call. -/
theorem claim_C1_witness :
    (exampleEditor.spawn exampleParent).editor.baseview_state.is_open = true ∧
    ∃ j : Fin (exampleEditor.spawn exampleParent).events.length,
      (j : Nat) < 1 ∧
      ((exampleEditor.spawn exampleParent).events.get j).is_open_parented = true :=
  ⟨(claim_C1.2 Unit Unit exampleEditor exampleParent).1,
    (claim_C1.2 Unit Unit exampleEditor exampleParent).2.2
      ⟨1, by decide⟩ (by decide)⟩

/-- C2: disposal of the handle stores false to the shared open flag
strictly before issuing the native window-close request, so is_open is
false after disposal, and no event of the disposal trace ever stores true. -/
theorem claim_C2 (h : BaseviewEditorHandle) :
    (h.drop).2.is_open = false ∧
    (∀ i : Fin (h.drop).1.length,
      ((h.drop).1.get i).is_window_close = true →
      ∃ j : Fin (h.drop).1.length,
        (j : Nat) < (i : Nat) ∧
        ((h.drop).1.get j).is_store_open false = true) ∧
    (∀ i : Fin (h.drop).1.length,
      ((h.drop).1.get i).is_store_open true = false) := by
  refine ⟨rfl, ?_, ?_⟩
  · rintro ⟨i, hlt⟩ hi
    have hl2 : (h.drop).1.length = 2 := rfl
    rw [hl2] at hlt
    interval_cases i
    · exact absurd hi (by simp [drop_events, NativeEvent.is_window_close])
    · exact ⟨⟨0, Nat.zero_lt_two⟩, Nat.zero_lt_one, rfl⟩
  · rintro ⟨i, hlt⟩
    have hl2 : (h.drop).1.length = 2 := rfl
    rw [hl2] at hlt
    interval_cases i
    · rfl
    · rfl

/-- Witness for C2: at the disposal of the example handle, the close
request at trace position 1 is preceded by the store of false. -/
theorem claim_C2_witness :
    (exampleHandle.drop).2.is_open = false ∧
    ∃ j : Fin (exampleHandle.drop).1.length,
      (j : Nat) < 1 ∧
      ((exampleHandle.drop).1.get j).is_store_open false = true :=
  ⟨(claim_C2 exampleHandle).1,
    (claim_C2 exampleHandle).2.1 ⟨1, by decide⟩ (by decide)⟩

/-- C6: spawn snapshots the stored scaling factor: Some(f) gives a fixed
scale policy f, None delegates to system-scale detection, and the options
passed to the native creation call are exactly this snapshot's options;
the initial factor is None on macOS and Some(1.0) elsewhere. -/
theorem claim_C6 (T B : Type) (e : BaseviewEditor T B) (st : BaseviewState)
    (u : T) (b : B) (parent : ParentWindowHandle) :
    (∀ factor, e.scaling_factor = some factor →
      e.spawnOptions.scale = WindowScalePolicy.ScaleFactor factor) ∧
    (e.scaling_factor = none →
      e.spawnOptions.scale = WindowScalePolicy.SystemScaleFactor) ∧
    (e.spawn parent).events.head? = some (NativeEvent.open_parented
      (ParentWindowHandleAdapter.raw_window_handle parent) e.spawnOptions) ∧
    (∃ ed, create_baseview_editor true st u b = some ed ∧
      ed.scaling_factor = none) ∧
    (∃ ed, create_baseview_editor false st u b = some ed ∧
      ed.scaling_factor = some 1) := by
  refine ⟨?_, ?_, rfl, ⟨_, rfl, rfl⟩, ⟨_, rfl, rfl⟩⟩
  · intro factor hf
    simp [BaseviewEditor.spawnOptions, hf]
  · intro hf
    simp [BaseviewEditor.spawnOptions, hf]

/-- Witness for C6: the example adapter stores Some(1.0), so its spawn
options use the fixed scale policy 1.0. -/
theorem claim_C6_witness :
    exampleEditor.spawnOptions.scale = WindowScalePolicy.ScaleFactor 1 :=
  (claim_C6 Unit Unit exampleEditor exampleState () () exampleParent).1 1 rfl

/-- Counterexample to C5: the shared state reached by the example spawn is
open with size (400, 300), yet the persistent-field set (a load of a
persisted value) overwrites the size to (3, 4) while open is still true. -/
theorem claim_C5_counterexample :
    exampleOpenEditor.baseview_state.is_open = true ∧
    exampleOpenEditor.baseview_state.size = (400, 300) ∧
    (PersistentField.set exampleOpenEditor.baseview_state
      (BaseviewState.deserialize (3, 4))).size = (3, 4) :=
  ⟨rfl, rfl, rfl⟩

/-- C5 (amended): spawn, set_scale_factor and handle disposal never modify
the stored size (whether or not a window is open); PersistentField::set,
however, overwrites the size with the incoming value unconditionally, even
while open — only the host's contract keeps size stable while open. -/
theorem claim_C5_amended (T B : Type) (e : BaseviewEditor T B)
    (parent : ParentWindowHandle) (factor : F32) (h : BaseviewEditorHandle)
    (live new_value : BaseviewState) :
    (e.spawn parent).editor.baseview_state.size = e.baseview_state.size ∧
    (e.spawn parent).handle.baseview_state.size = e.baseview_state.size ∧
    (e.set_scale_factor factor).1.baseview_state.size = e.baseview_state.size ∧
    (h.drop).2.size = h.baseview_state.size ∧
    (PersistentField.set live new_value).size = new_value.size := by
  refine ⟨rfl, rfl, ?_, rfl, rfl⟩
  by_cases ho : e.baseview_state.is_open <;>
    simp [BaseviewEditor.set_scale_factor, ho]

/-- Helper for C10: no single host operation discards a stored scaling
factor. -/
theorem scaling_isSome_applyOp (e : BaseviewEditor T B) (op : EditorOp)
    (hs : e.scaling_factor.isSome = true) :
    (applyOp e op).scaling_factor.isSome = true := by
  cases op with
  | set_scale factor =>
      simp only [applyOp, BaseviewEditor.set_scale_factor]
      by_cases ho : e.baseview_state.is_open <;> simp [ho, hs]
  | spawn_window parent => simpa [applyOp, BaseviewEditor.spawn] using hs
  | drop_handle => simpa [applyOp] using hs

/-- Helper for C10: no sequence of host operations discards a stored
scaling factor. -/
theorem scaling_isSome_runOps (e : BaseviewEditor T B) (ops : List EditorOp)
    (hs : e.scaling_factor.isSome = true) :
    (runOps e ops).scaling_factor.isSome = true := by
  induction ops generalizing e with
  | nil => simpa [runOps] using hs
  | cons op rest ih =>
      simpa [runOps, List.foldl] using
        ih (applyOp e op) (scaling_isSome_applyOp e op hs)

/-- C10: set_scale_factor either leaves the factor unchanged or stores
Some(factor), so a stored Some factor survives every host operation and
every operation sequence; consequently on non-macOS platforms (initial
factor Some(1.0)) every reachable spawn uses a fixed scale factor and the
system-scale-detection path is unreachable. -/
theorem claim_C10 (T B : Type) (e : BaseviewEditor T B) (factor : F32)
    (op : EditorOp) (ops : List EditorOp) (st : BaseviewState) (u : T) (b : B) :
    ((e.set_scale_factor factor).1.scaling_factor = e.scaling_factor ∨
      (e.set_scale_factor factor).1.scaling_factor = some factor) ∧
    (e.scaling_factor.isSome = true →
      (applyOp e op).scaling_factor.isSome = true) ∧
    (e.scaling_factor.isSome = true →
      (runOps e ops).scaling_factor.isSome = true) ∧
    (∃ ed, create_baseview_editor false st u b = some ed ∧
      ∃ f, (runOps ed ops).spawnOptions.scale
        = WindowScalePolicy.ScaleFactor f) := by
  refine ⟨?_, scaling_isSome_applyOp e op, scaling_isSome_runOps e ops, ?_⟩
  · by_cases ho : e.baseview_state.is_open <;>
      simp [BaseviewEditor.set_scale_factor, ho]
  · refine ⟨initialNonMacEditor st u b, rfl, ?_⟩
    have hs : (runOps (initialNonMacEditor st u b) ops).scaling_factor.isSome = true :=
      scaling_isSome_runOps _ ops rfl
    obtain ⟨f, hf⟩ := Option.isSome_iff_exists.mp hs
    exact ⟨f, by simp [BaseviewEditor.spawnOptions, hf]⟩

/-- Witness for C10: on the example adapter, set_scale_factor stores
Some(2), and after an open/close/rescale sequence the factor is still
Some. -/
theorem claim_C10_witness :
    ((exampleEditor.set_scale_factor 2).1.scaling_factor
        = exampleEditor.scaling_factor ∨
      (exampleEditor.set_scale_factor 2).1.scaling_factor = some 2) ∧
    (runOps exampleEditor [EditorOp.spawn_window exampleParent,
      EditorOp.drop_handle, EditorOp.set_scale 2]).scaling_factor.isSome
      = true :=
  ⟨(claim_C10 Unit Unit exampleEditor 2 EditorOp.drop_handle []
      exampleState () ()).1,
    (claim_C10 Unit Unit exampleEditor 2 EditorOp.drop_handle
      [EditorOp.spawn_window exampleParent, EditorOp.drop_handle,
        EditorOp.set_scale 2] exampleState () ()).2.2.1 rfl⟩
